import Mathlib

/-!
Shallow embedding of the time-tracker browser extension.

The model covers:
* the active-tab time-accounting state machine of `background.js`
  (`TimeTracker`: `startTracking`, `stopTracking`, `switchTab`,
  `handleTabRemoved`, `getCurrentSessionTime`, `getDomain`, `saveTabData`),
* the `GET_TIME_DATA` message handler of `background.js`,
* the per-domain top-10 aggregation of the popup scripts,
* the cursor heatmap buffer of `content.js`
  (`recordPosition`, `handleClick`, `handleMouseMove`, `loadExistingData`),
* the 3-by-3 named-region lookup `getAreaName` of the popup.

Timestamps are natural numbers (milliseconds, as produced by a monotone
`Date.now()`); durations computed by the code are guarded by a positivity
check in the source, so natural subtraction agrees with JavaScript number
subtraction on every branch that stores a value.  JavaScript truthiness
tests on numbers (`this.activeTabId && this.activeTabStart`) are embedded
as explicit nonzero tests, and truthiness tests on optional strings as
`strTruthy` (absent or empty strings are falsy).
-/

/-- Embedding of JavaScript `String.prototype.startsWith` on explicit
character lists (structural, so that it evaluates inside the kernel). -/
def charsStartWith : List Char → List Char → Bool
  | _, [] => true
  | [], _ :: _ => false
  | c :: cs, p :: ps => c == p && charsStartWith cs ps

/-- Embedding of JavaScript `url.startsWith(p)`. -/
def strStartsWith (s p : String) : Bool :=
  charsStartWith s.toList p.toList

/-- The excluded internal-scheme test of `TimeTracker.startTracking`
(background.js lines 124-131), minus the `!url` truthiness part. -/
def isInternalUrl (url : String) : Bool :=
  strStartsWith url ("chrome://") || strStartsWith url ("chrome-extension://") ||
  strStartsWith url ("moz-extension://") || strStartsWith url ("edge://") ||
  strStartsWith url ("brave://") || strStartsWith url ("opera://")

/-- Splits a character list at the first occurrence of the literal
scheme separator `://`, returning the scheme part and the remainder. -/
def findSchemeSep : List Char → Option (List Char × List Char)
  | [] => none
  | ':' :: '/' :: '/' :: rest => some ([], rest)
  | c :: rest =>
    match findSchemeSep rest with
    | some (scheme, tail) => some (c :: scheme, tail)
    | none => none

/-- The characters after the last `@` of an authority component
(the whole input when no `@` occurs), dropping the userinfo part. -/
def afterLastAt (cs : List Char) : List Char :=
  cs.foldl (fun acc c => if c == '@' then [] else acc ++ [c]) []

/-- Hostname extraction for hierarchical URLs: the part of the
authority after the userinfo and before any port, path, query or
fragment.  Returns `none` when the URL has no scheme or no host,
mirroring the cases in which the `new URL(url)` constructor throws. -/
def hostnameOfChars (cs : List Char) : Option (List Char) :=
  match findSchemeSep cs with
  | none => none
  | some (scheme, rest) =>
    if scheme.isEmpty then none
    else
      let authority := rest.takeWhile (fun c => c != '/' && c != '?' && c != '#')
      let host := (afterLastAt authority).takeWhile (fun c => c != ':')
      if host.isEmpty then none else some host

/-- Embedding of `TimeTracker.getDomain` (background.js lines 178-184):
`new URL(url).hostname`, with `"unknown"` when the constructor throws. -/
def getDomain (url : String) : String :=
  match hostnameOfChars url.toList with
  | some host => String.mk host
  | none => "unknown"

/-- JavaScript truthiness of an optional string: `null`/`undefined` and
the empty string are falsy. -/
def strTruthy : Option String → Bool
  | none => false
  | some u => !(u.isEmpty)

/-- The full guard of `TimeTracker.startTracking`:
`!url || url.startsWith("chrome://") || ...`. -/
def isExcludedUrl (url : Option String) : Bool :=
  !(strTruthy url) || isInternalUrl (url.getD "")

/-- One finalized session record `{start, end, duration}`
as pushed by `TimeTracker.stopTracking`. -/
structure Session where
  start : Nat
  endT : Nat
  duration : Nat
deriving DecidableEq

/-- Per-tab accumulated record, as initialized by
`TimeTracker.startTracking` (background.js lines 139-146). -/
structure TabRecord where
  url : String
  domain : String
  totalTime : Nat
  sessions : List Session
deriving DecidableEq

/-- The `tabData` map from tab id to record.  JavaScript `Map` preserves
insertion order, so it is embedded as an association list in which
`set` on a fresh key appends at the end. -/
abbrev TabMap := List (Nat × TabRecord)

/-- Association-list lookup, embedding `Map.prototype.get`. -/
def lookupTab (id : Nat) : TabMap → Option TabRecord
  | [] => none
  | (k, v) :: rest => if k = id then some v else lookupTab id rest

/-- Association-list update, embedding `Map.prototype.set` on a key that
is already present (in-place) or fresh (appended at the end). -/
def setTab (id : Nat) (v : TabRecord) : TabMap → TabMap
  | [] => [(id, v)]
  | (k, w) :: rest => if k = id then (id, v) :: rest else (k, w) :: setTab id v rest

/-- Association-list removal, embedding `Map.prototype.delete`. -/
def eraseTab (id : Nat) : TabMap → TabMap
  | [] => []
  | (k, v) :: rest => if k = id then eraseTab id rest else (k, v) :: eraseTab id rest

/-- The mutable state of the `TimeTracker` singleton, plus the persisted
copy of the tab map written by `saveTabData` (the `tabData` storage key). -/
structure TrackerState where
  activeTabId : Option Nat
  activeTabStart : Option Nat
  tabData : TabMap
  storage : TabMap
deriving DecidableEq

/-- The constructor state of `TimeTracker` (background.js lines 3-8),
with empty persisted storage. -/
def initState : TrackerState :=
  { activeTabId := none, activeTabStart := none, tabData := [], storage := [] }

/-- The record update performed by `TimeTracker.stopTracking` when a
session is finalized: accumulate `totalTime` and push the session. -/
def finalizeRecord (st now : Nat) (td : TabRecord) : TabRecord :=
  { td with
    totalTime := td.totalTime + (now - st),
    sessions := td.sessions ++ [{ start := st, endT := now, duration := now - st }] }

/-- Embedding of `TimeTracker.startTracking` (background.js lines 121-150).
Excluded (absent, empty or internal-scheme) URLs return without touching
any state; otherwise the active pair is set and a fresh record is
created when the tab id is not yet in the map. -/
def startTracking (now tabId : Nat) (url : Option String) (s : TrackerState) : TrackerState :=
  if isExcludedUrl url then s
  else
    { s with
      activeTabId := some tabId,
      activeTabStart := some now,
      tabData :=
        match lookupTab tabId s.tabData with
        | some _ => s.tabData
        | none =>
          s.tabData ++ [(tabId,
            { url := url.getD "", domain := getDomain (url.getD ""),
              totalTime := 0, sessions := [] })] }

/-- Embedding of `TimeTracker.stopTracking` (background.js lines 152-176).
The JavaScript guard `this.activeTabId && this.activeTabStart` is number
truthiness, hence the explicit nonzero tests; the session is recorded
only when `sessionTime > 0`, and `saveTabData` persists the updated map
in exactly that case.  Both active fields are nulled on every branch. -/
def stopTracking (now : Nat) (s : TrackerState) : TrackerState :=
  match s.activeTabId, s.activeTabStart with
  | some id, some st =>
    if id ≠ 0 ∧ st ≠ 0 then
      match lookupTab id s.tabData with
      | some td =>
        if st < now then
          let newData := setTab id (finalizeRecord st now td) s.tabData
          { s with tabData := newData, storage := newData,
                   activeTabId := none, activeTabStart := none }
        else { s with activeTabId := none, activeTabStart := none }
      | none => { s with activeTabId := none, activeTabStart := none }
    else { s with activeTabId := none, activeTabStart := none }
  | _, _ => { s with activeTabId := none, activeTabStart := none }

/-- Embedding of `TimeTracker.switchTab` (background.js lines 95-119).
`url` is the explicitly passed argument; `lookup` is the URL that the
`chrome.tabs.get` callback would observe when no URL is passed (`none`
when the query errors or the tab has no truthy URL). -/
def switchTab (now tabId : Nat) (url lookup : Option String) (s : TrackerState) : TrackerState :=
  let s1 := stopTracking now s
  if strTruthy url then startTracking now tabId url s1
  else if strTruthy lookup then startTracking now tabId lookup s1
  else s1

/-- Embedding of `TimeTracker.handleTabRemoved` (background.js lines 83-93):
delete the tab record, and clear the active pair when the removed tab is
the active one (strict equality `this.activeTabId === tabId`). -/
def handleTabRemoved (tabId : Nat) (s : TrackerState) : TrackerState :=
  if s.activeTabId = some tabId then
    { s with tabData := eraseTab tabId s.tabData,
             activeTabId := none, activeTabStart := none }
  else { s with tabData := eraseTab tabId s.tabData }

/-- Embedding of `TimeTracker.getCurrentSessionTime`
(background.js lines 226-231). -/
def getCurrentSessionTime (now : Nat) (s : TrackerState) : Nat :=
  match s.activeTabId, s.activeTabStart with
  | some id, some st => if id ≠ 0 ∧ st ≠ 0 then now - st else 0
  | _, _ => 0

/-- The browser events the tracker reacts to.  `activated` carries the
URL that the `chrome.tabs.get` callback resolves (`none` on error);
`updated` carries `changeInfo.url` of a completed update of the active
tab; `focusGained` models `getCurrentActiveTab`, which calls
`startTracking` directly with the queried tab. -/
inductive TabEvent where
  | activated (now tabId : Nat) (lookup : Option String)
  | updated (now tabId : Nat) (url : String)
  | focusLost (now : Nat)
  | focusGained (now tabId : Nat) (url : Option String)
  | removed (tabId : Nat)

/-- One step of the event-driven tracker: the dispatch performed by the
listeners registered in `TimeTracker.init`.  `handleTabUpdated` only
forwards updates whose `changeInfo.url` is truthy. -/
def stepEvent (s : TrackerState) : TabEvent → TrackerState
  | .activated now tabId lookup => switchTab now tabId none lookup s
  | .updated now tabId url => if url.isEmpty then s else switchTab now tabId (some url) none s
  | .focusLost now => stopTracking now s
  | .focusGained now tabId url => startTracking now tabId url s
  | .removed tabId => handleTabRemoved tabId s

/-- Running a sequence of browser events from the constructor state. -/
def runEvents (events : List TabEvent) : TrackerState :=
  events.foldl stepEvent initState

/-- Whether an event can begin a tracking session for tab `t`, i.e.
reaches `startTracking` for `t` with a non-excluded URL. -/
def startsTab (t : Nat) : TabEvent → Bool
  | .activated _ tabId lookup => tabId == t && !(isExcludedUrl lookup)
  | .updated _ tabId url => tabId == t && !(url.isEmpty) && !(isExcludedUrl (some url))
  | .focusLost _ => false
  | .focusGained _ tabId url => tabId == t && !(isExcludedUrl url)
  | .removed _ => false

/-- One step of the per-domain aggregation of `PopupUI.displayDailyStats`
(popup script lines 480-486): JavaScript object keys that are not array
indices preserve insertion order, so `domainStats` is an association
list in which a fresh domain is appended at the end. -/
def addDomainTime (stats : List (String × Nat)) (domain : String) (time : Nat) :
    List (String × Nat) :=
  match stats with
  | [] => [(domain, time)]
  | (d, t) :: rest =>
    if d = domain then (d, t + time) :: rest
    else (d, t) :: addDomainTime rest domain time

/-- The `domainStats` accumulation over `Object.values(tabData)`. -/
def aggregateDomains (tabs : List TabRecord) : List (String × Nat) :=
  tabs.foldl (fun acc tab => addDomainTime acc tab.domain tab.totalTime) []

/-- One insertion step of a stable descending sort by accumulated time.
An element is placed before the first element whose time is less than or
equal to its own, so elements inserted later (i.e. earlier in the input
of the right fold) stay before equal-time elements inserted before. -/
def insertByTimeDesc (p : String × Nat) : List (String × Nat) → List (String × Nat)
  | [] => [p]
  | q :: rest => if q.2 ≤ p.2 then p :: q :: rest else q :: insertByTimeDesc p rest

/-- Embedding of `.sort(([, a], [, b]) => b - a)`: `Array.prototype.sort`
is guaranteed stable, and a stable sort is uniquely determined by the
comparator, so it is embedded as a stable insertion sort. -/
def sortByTimeDesc (l : List (String × Nat)) : List (String × Nat) :=
  l.foldr insertByTimeDesc []

/-- Embedding of the list built by `PopupUI.displayDailyStats`
(popup script lines 468-509): aggregate per domain, sort descending by
time, keep the top 10. -/
def displayDailyStats (tabs : List TabRecord) : List (String × Nat) :=
  (sortByTimeDesc (aggregateDomains tabs)).take 10

/-- Sortedness by non-increasing accumulated time. -/
def TimeSorted (l : List (String × Nat)) : Prop :=
  l.Pairwise (fun a b => b.2 ≤ a.2)

/-- The tab object observed by `chrome.tabs.query` in the message
listener; only its `url` matters to the handler. -/
structure ChromeTab where
  url : String
deriving DecidableEq

/-- The response shape of the `GET_TIME_DATA` message. -/
structure TimeResponse where
  tabData : TabMap
  currentSessionTime : Nat
deriving DecidableEq

/-- Embedding of `TimeTracker.getStoredData` (background.js lines
204-223): resolves the stored `tabData` key on success and resolves
with an empty result on any storage error — it never rejects. -/
def getStoredData (storageOk : Bool) (stored : Option TabMap) : Option TabMap :=
  if storageOk then stored else none

/-- Embedding of the `GET_TIME_DATA` branch of the
`chrome.runtime.onMessage` listener (background.js lines 243-276).
`queryOk` is whether `chrome.tabs.query` succeeded, `tab` is `tabs[0]`,
`tracker` is the (possibly failed-to-initialize) `timeTracker`
singleton, `storageOk`/`stored` feed `getStoredData`. -/
def handleGetTimeData (queryOk : Bool) (tab : Option ChromeTab) (now : Nat)
    (tracker : Option TrackerState) (storageOk : Bool) (stored : Option TabMap) :
    TimeResponse :=
  if queryOk = false then { tabData := [], currentSessionTime := 0 }
  else
    let cst := match tracker with
      | some tr => getCurrentSessionTime now tr
      | none => 0
    let data := match tracker with
      | some _ => getStoredData storageOk stored
      | none => none
    { tabData := data.getD [],
      currentSessionTime :=
        match tab with
        | some t => if strStartsWith t.url ("chrome://") then 0 else cst
        | none => 0 }

/-- The viewport component of a heatmap point. -/
structure Viewport where
  width : Nat
  height : Nat
deriving DecidableEq

/-- One heatmap point as built by `CursorTracker.recordPosition`
(content.js lines 96-108). -/
structure HeatmapPoint where
  x : Int
  y : Int
  timestamp : Nat
  weight : Nat
  domain : String
  url : String
  viewport : Viewport
deriving DecidableEq

/-- The state of the `CursorTracker` relevant to the buffer logic. -/
structure CursorState where
  heatmapData : List HeatmapPoint
  currentPosition : Int × Int
  domain : String
  url : String
  viewport : Viewport
deriving DecidableEq

/-- JavaScript `x || fallback` on an optional number argument:
`null`/`undefined` and `0` select the fallback. -/
def jsOrInt (x : Option Int) (fallback : Int) : Int :=
  match x with
  | some v => if v = 0 then fallback else v
  | none => fallback

/-- The point object pushed by `CursorTracker.recordPosition`. -/
def recordedPoint (now : Nat) (x y : Option Int) (weight : Nat) (s : CursorState) :
    HeatmapPoint :=
  { x := jsOrInt x s.currentPosition.1,
    y := jsOrInt y s.currentPosition.2,
    timestamp := now, weight := weight,
    domain := s.domain, url := s.url, viewport := s.viewport }

/-- Embedding of `CursorTracker.recordPosition` (content.js lines
96-116): push the point, then prune with `slice(-1000)` when the buffer
exceeds 1000 entries. -/
def recordPosition (now : Nat) (x y : Option Int) (weight : Nat) (s : CursorState) :
    CursorState :=
  let data := s.heatmapData ++ [recordedPoint now x y weight s]
  { s with heatmapData := if 1000 < data.length then data.drop (data.length - 1000) else data }

/-- Embedding of `CursorTracker.handleClick` (content.js lines 85-88):
record at `(event.clientX, event.clientY + window.scrollY)` with
weight 5. -/
def handleClick (now : Nat) (clientX clientY scrollY : Int) (s : CursorState) : CursorState :=
  recordPosition now (some clientX) (some (clientY + scrollY)) 5 s

/-- Embedding of `CursorTracker.handleMouseMove` (content.js lines
78-83). -/
def handleMouseMove (clientX clientY scrollY : Int) (s : CursorState) : CursorState :=
  { s with currentPosition := (clientX, clientY + scrollY) }

/-- One tick of the 100ms sampling interval (content.js lines 54-58):
when the document is not hidden, record the current position with the
default arguments (weight 1). -/
def sampleTick (now : Nat) (hidden : Bool) (s : CursorState) : CursorState :=
  if hidden then s else recordPosition now none none 1 s

/-- Lookup of the per-domain point list in the stored `heatmapData` map. -/
def lookupDomain (d : String) : List (String × List HeatmapPoint) → Option (List HeatmapPoint)
  | [] => none
  | (k, v) :: rest => if k = d then some v else lookupDomain d rest

/-- Embedding of `CursorTracker.loadExistingData` (content.js lines
118-133): when the stored map has an entry for the current domain,
replace the buffer with the stored points whose timestamp is strictly
within the last 24 hours.  `oneDayAgo` is computed in `Int` because
JavaScript number subtraction does not truncate at zero. -/
def loadExistingData (now : Nat) (stored : Option (List (String × List HeatmapPoint)))
    (s : CursorState) : CursorState :=
  match stored with
  | none => s
  | some hm =>
    match lookupDomain s.domain hm with
    | none => s
    | some existing =>
      { s with heatmapData :=
          existing.filter (fun p => decide ((now : Int) - 24 * 60 * 60 * 1000 < (p.timestamp : Int))) }

/-- The messages of the extension's runtime message contract. -/
inductive ExtMessage where
  | getTimeData
  | saveHeatmapData (data : List (String × List HeatmapPoint))

/-- Modelled from the spec: the message listener of the heatmap-variant
background script is not under src/ (src/content.js is only its caller,
sending the message in `CursorTracker.saveHeatmapData`, and the
background script under src/ handles popup messages only).  Per the
spec's external-interface section, that listener "additionally accepts
`{type: "SAVE_HEATMAP_DATA", data}`" alongside `GET_TIME_DATA`. -/
def backgroundAccepts : ExtMessage → Bool
  | .getTimeData => true
  | .saveHeatmapData _ => true

/-- One named region of `PopupManager.getAreaName`
(popup script lines 207-231), with inclusive coordinate bounds. -/
structure Area where
  name : String
  xlo : Nat
  xhi : Nat
  ylo : Nat
  yhi : Nat
deriving DecidableEq

/-- The nine named 3-by-3 regions, in source order. -/
def areas : List Area :=
  [⟨"Top Left", 0, 16, 0, 13⟩, ⟨"Top Center", 17, 33, 0, 13⟩, ⟨"Top Right", 34, 50, 0, 13⟩,
   ⟨"Middle Left", 0, 16, 14, 26⟩, ⟨"Center", 17, 33, 14, 26⟩, ⟨"Middle Right", 34, 50, 14, 26⟩,
   ⟨"Bottom Left", 0, 16, 27, 40⟩, ⟨"Bottom Center", 17, 33, 27, 40⟩,
   ⟨"Bottom Right", 34, 50, 27, 40⟩]

/-- The containment test of the loop body of `getAreaName`. -/
def areaContains (gridX gridY : Nat) (a : Area) : Bool :=
  decide (a.xlo ≤ gridX) && decide (gridX ≤ a.xhi) &&
  decide (a.ylo ≤ gridY) && decide (gridY ≤ a.yhi)

/-- Embedding of `PopupManager.getAreaName`: the name of the first
containing region, `"Unknown"` when none contains the cell. -/
def getAreaName (gridX gridY : Nat) : String :=
  match areas.find? (fun a => areaContains gridX gridY a) with
  | some a => a.name
  | none => "Unknown"

example : getDomain "https://a.com" = "a.com" := by decide
example : getDomain "https://user@sub.b.org:8080/p?q" = "sub.b.org" := by decide
example : getDomain "nonsense" = "unknown" := by decide
example : isInternalUrl "chrome://settings" = true := by decide
example : isInternalUrl "https://a.com" = false := by decide
example : getAreaName 17 14 = "Center" := by decide
example : getAreaName 51 0 = "Unknown" := by decide
example :
    lookupTab 1 (runEvents [TabEvent.updated 100 1 ("https://a.com"),
      TabEvent.updated 5100 2 ("https://b.com")]).tabData =
    some { url := "https://a.com", domain := "a.com", totalTime := 5000,
           sessions := [{ start := 100, endT := 5100, duration := 5000 }] } := by decide

lemma lookupTab_setTab_self (id : Nat) (v : TabRecord) :
    ∀ m : TabMap, lookupTab id (setTab id v m) = some v := by
  intro m
  induction m with
  | nil => simp [setTab, lookupTab]
  | cons kv rest ih =>
    obtain ⟨k, w⟩ := kv
    by_cases hk : k = id <;> simp [setTab, lookupTab, hk, ih]

lemma lookupTab_setTab_ne (t id : Nat) (v : TabRecord) (h : t ≠ id) :
    ∀ m : TabMap, lookupTab t (setTab id v m) = lookupTab t m := by
  intro m
  induction m with
  | nil => simp [setTab, lookupTab, Ne.symm h]
  | cons kv rest ih =>
    obtain ⟨k, w⟩ := kv
    by_cases hk : k = id
    · subst hk
      simp [setTab, lookupTab, Ne.symm h]
    · simp [setTab, lookupTab, hk, ih]

lemma lookupTab_eraseTab_self (id : Nat) :
    ∀ m : TabMap, lookupTab id (eraseTab id m) = none := by
  intro m
  induction m with
  | nil => simp [eraseTab, lookupTab]
  | cons kv rest ih =>
    obtain ⟨k, w⟩ := kv
    by_cases hk : k = id <;> simp [eraseTab, lookupTab, hk, ih]

lemma lookupTab_eraseTab_ne (t id : Nat) (h : t ≠ id) :
    ∀ m : TabMap, lookupTab t (eraseTab id m) = lookupTab t m := by
  intro m
  induction m with
  | nil => simp [eraseTab, lookupTab]
  | cons kv rest ih =>
    obtain ⟨k, w⟩ := kv
    by_cases hk : k = id
    · subst hk
      simp [eraseTab, lookupTab, Ne.symm h, ih]
    · simp [eraseTab, lookupTab, hk, ih]

lemma lookupTab_append_some (t : Nat) (w : TabRecord) (id : Nat) (v : TabRecord) :
    ∀ m : TabMap, lookupTab t m = some w → lookupTab t (m ++ [(id, v)]) = some w := by
  intro m
  induction m with
  | nil => intro h; cases h
  | cons kv rest ih =>
    obtain ⟨k, u⟩ := kv
    intro h
    by_cases hk : k = t
    · simp [lookupTab, hk] at h ⊢
      exact h
    · simp [lookupTab, hk] at h ⊢
      exact ih h

lemma lookupTab_append_none (t : Nat) (id : Nat) (v : TabRecord) (h : t ≠ id) :
    ∀ m : TabMap, lookupTab t m = none → lookupTab t (m ++ [(id, v)]) = none := by
  intro m
  induction m with
  | nil => intro _; simp [lookupTab, Ne.symm h]
  | cons kv rest ih =>
    obtain ⟨k, u⟩ := kv
    intro hm
    by_cases hk : k = t
    · simp [lookupTab, hk] at hm
    · simp [lookupTab, hk] at hm ⊢
      exact ih hm

lemma stopTracking_finalize (s : TrackerState) (now A st : Nat) (td : TabRecord)
    (hA : s.activeTabId = some A) (hst : s.activeTabStart = some st)
    (hA0 : A ≠ 0) (hst0 : st ≠ 0) (htd : lookupTab A s.tabData = some td)
    (hlt : st < now) :
    stopTracking now s =
      { s with activeTabId := none, activeTabStart := none,
               tabData := setTab A (finalizeRecord st now td) s.tabData,
               storage := setTab A (finalizeRecord st now td) s.tabData } := by
  simp only [stopTracking, hA, hst, htd]
  rw [if_pos ⟨hA0, hst0⟩, if_pos hlt]

lemma stopTracking_noSession (s : TrackerState) (now A st : Nat) (td : TabRecord)
    (hA : s.activeTabId = some A) (hst : s.activeTabStart = some st)
    (htd : lookupTab A s.tabData = some td) (hge : now ≤ st) :
    stopTracking now s = { s with activeTabId := none, activeTabStart := none } := by
  simp only [stopTracking, hA, hst, htd]
  by_cases h0 : A ≠ 0 ∧ st ≠ 0
  · rw [if_pos h0, if_neg (by omega)]
  · rw [if_neg h0]

lemma stopTracking_activeTabId (now : Nat) (s : TrackerState) :
    (stopTracking now s).activeTabId = none := by
  unfold stopTracking
  split
  · split
    · split
      · split <;> rfl
      · rfl
    · rfl
  · rfl

lemma stopTracking_activeTabStart (now : Nat) (s : TrackerState) :
    (stopTracking now s).activeTabStart = none := by
  unfold stopTracking
  split
  · split
    · split
      · split <;> rfl
      · rfl
    · rfl
  · rfl

lemma stopTracking_tabData_cases (now : Nat) (s : TrackerState) :
    (stopTracking now s).tabData = s.tabData ∨
    ∃ A st td, s.activeTabId = some A ∧ s.activeTabStart = some st ∧
      lookupTab A s.tabData = some td ∧ st < now ∧
      (stopTracking now s).tabData = setTab A (finalizeRecord st now td) s.tabData := by
  unfold stopTracking
  rcases hA : s.activeTabId with _ | A
  · left; rfl
  · rcases hst : s.activeTabStart with _ | st
    · left; rfl
    · simp only
      by_cases h0 : A ≠ 0 ∧ st ≠ 0
      · rw [if_pos h0]
        rcases htd : lookupTab A s.tabData with _ | td
        · left; rfl
        · dsimp only
          by_cases hlt : st < now
          · rw [if_pos hlt]
            right
            exact ⟨A, st, td, rfl, rfl, htd, hlt, rfl⟩
          · rw [if_neg hlt]; left; rfl
      · rw [if_neg h0]; left; rfl

lemma stopTracking_lookup_preserve (now : Nat) (s : TrackerState) (t : Nat)
    (td : TabRecord) (h : lookupTab t s.tabData = some td) :
    ∃ td2, lookupTab t (stopTracking now s).tabData = some td2 ∧
      td.totalTime ≤ td2.totalTime := by
  rcases stopTracking_tabData_cases now s with hc | ⟨A, st, td0, _, _, htd0, _, hc⟩
  · exact ⟨td, by rw [hc, h], le_refl _⟩
  · by_cases ht : t = A
    · subst ht
      rw [h] at htd0
      cases htd0
      refine ⟨finalizeRecord st now td, ?_, ?_⟩
      · rw [hc, lookupTab_setTab_self]
      · simp [finalizeRecord]
    · exact ⟨td, by rw [hc, lookupTab_setTab_ne t A _ ht, h], le_refl _⟩

lemma stopTracking_lookup_none (now : Nat) (s : TrackerState) (t : Nat)
    (hact : s.activeTabId ≠ some t) (h : lookupTab t s.tabData = none) :
    lookupTab t (stopTracking now s).tabData = none := by
  rcases stopTracking_tabData_cases now s with hc | ⟨A, st, td0, hA, _, _, _, hc⟩
  · rw [hc, h]
  · have ht : t ≠ A := by
      intro e
      exact hact (by rw [e, hA])
    rw [hc, lookupTab_setTab_ne t A _ ht, h]

lemma startTracking_lookup_preserve (now tabId : Nat) (url : Option String)
    (s : TrackerState) (t : Nat) (td : TabRecord)
    (h : lookupTab t s.tabData = some td) :
    lookupTab t (startTracking now tabId url s).tabData = some td := by
  unfold startTracking
  split
  · exact h
  · simp only
    rcases hB : lookupTab tabId s.tabData with _ | w
    · have ht : t ≠ tabId := by
        intro e
        rw [e, hB] at h
        cases h
      exact lookupTab_append_some t td tabId _ s.tabData h
    · exact h

lemma startTracking_lookup_none (now tabId : Nat) (url : Option String)
    (s : TrackerState) (t : Nat) (ht : t ≠ tabId)
    (h : lookupTab t s.tabData = none) :
    lookupTab t (startTracking now tabId url s).tabData = none := by
  unfold startTracking
  split
  · exact h
  · simp only
    rcases hB : lookupTab tabId s.tabData with _ | w
    · exact lookupTab_append_none t tabId _ ht s.tabData h
    · exact h

lemma startTracking_excluded (now tabId : Nat) (url : Option String)
    (s : TrackerState) (h : isExcludedUrl url = true) :
    startTracking now tabId url s = s := by
  unfold startTracking
  rw [if_pos h]

lemma startTracking_included (now tabId : Nat) (url : Option String)
    (s : TrackerState) (h : isExcludedUrl url = false) :
    (startTracking now tabId url s).activeTabId = some tabId ∧
    (startTracking now tabId url s).activeTabStart = some now := by
  unfold startTracking
  rw [if_neg (by simp [h])]
  exact ⟨rfl, rfl⟩

lemma switchTab_lookup_finalize (s : TrackerState) (now A st : Nat) (td : TabRecord)
    (tabB : Nat) (url lookup : Option String)
    (hA : s.activeTabId = some A) (hst : s.activeTabStart = some st)
    (hA0 : A ≠ 0) (hst0 : st ≠ 0) (htd : lookupTab A s.tabData = some td)
    (hlt : st < now) :
    lookupTab A (switchTab now tabB url lookup s).tabData =
      some (finalizeRecord st now td) ∧
    lookupTab A (switchTab now tabB url lookup s).storage =
      some (finalizeRecord st now td) := by
  unfold switchTab
  rw [stopTracking_finalize s now A st td hA hst hA0 hst0 htd hlt]
  have hstop :
      lookupTab A (setTab A (finalizeRecord st now td) s.tabData) =
        some (finalizeRecord st now td) := lookupTab_setTab_self A _ s.tabData
  have hstor :
      ∀ u : Option String,
        (startTracking now tabB u
          { s with activeTabId := none, activeTabStart := none,
                   tabData := setTab A (finalizeRecord st now td) s.tabData,
                   storage := setTab A (finalizeRecord st now td) s.tabData }).storage =
        setTab A (finalizeRecord st now td) s.tabData := by
    intro u
    unfold startTracking
    split <;> rfl
  by_cases hu : strTruthy url
  · rw [if_pos hu]
    exact ⟨startTracking_lookup_preserve _ _ _ _ _ _ hstop, by rw [hstor]; exact hstop⟩
  · rw [if_neg hu]
    by_cases hl : strTruthy lookup
    · rw [if_pos hl]
      exact ⟨startTracking_lookup_preserve _ _ _ _ _ _ hstop, by rw [hstor]; exact hstop⟩
    · rw [if_neg hl]
      exact ⟨hstop, hstop⟩

lemma switchTab_lookup_noSession (s : TrackerState) (now A st : Nat) (td : TabRecord)
    (tabB : Nat) (url lookup : Option String)
    (hA : s.activeTabId = some A) (hst : s.activeTabStart = some st)
    (htd : lookupTab A s.tabData = some td) (hge : now ≤ st) :
    lookupTab A (switchTab now tabB url lookup s).tabData = some td ∧
    (switchTab now tabB url lookup s).storage = s.storage := by
  unfold switchTab
  rw [stopTracking_noSession s now A st td hA hst htd hge]
  have hstor :
      ∀ u : Option String,
        (startTracking now tabB u
          { s with activeTabId := none, activeTabStart := none }).storage = s.storage := by
    intro u
    unfold startTracking
    split <;> rfl
  by_cases hu : strTruthy url
  · rw [if_pos hu]
    exact ⟨startTracking_lookup_preserve _ _ _ _ _ _ htd, hstor _⟩
  · rw [if_neg hu]
    by_cases hl : strTruthy lookup
    · rw [if_pos hl]
      exact ⟨startTracking_lookup_preserve _ _ _ _ _ _ htd, hstor _⟩
    · rw [if_neg hl]
      exact ⟨htd, rfl⟩

lemma switchTab_lookup_preserve (now tabId : Nat) (url lookup : Option String)
    (s : TrackerState) (t : Nat) (td : TabRecord)
    (h : lookupTab t s.tabData = some td) :
    ∃ td2, lookupTab t (switchTab now tabId url lookup s).tabData = some td2 ∧
      td.totalTime ≤ td2.totalTime := by
  unfold switchTab
  obtain ⟨td2, h2, hle⟩ := stopTracking_lookup_preserve now s t td h
  by_cases hu : strTruthy url
  · rw [if_pos hu]
    exact ⟨td2, startTracking_lookup_preserve _ _ _ _ _ _ h2, hle⟩
  · rw [if_neg hu]
    by_cases hl : strTruthy lookup
    · rw [if_pos hl]
      exact ⟨td2, startTracking_lookup_preserve _ _ _ _ _ _ h2, hle⟩
    · rw [if_neg hl]
      exact ⟨td2, h2, hle⟩

lemma stepEvent_totalTime_mono (s : TrackerState) (e : TabEvent) (t : Nat)
    (td td2 : TabRecord) (h : lookupTab t s.tabData = some td)
    (h2 : lookupTab t (stepEvent s e).tabData = some td2) :
    td.totalTime ≤ td2.totalTime := by
  cases e with
  | activated now tabId lookup =>
    obtain ⟨td3, h3, hle⟩ := switchTab_lookup_preserve now tabId none lookup s t td h
    rw [stepEvent] at h2
    rw [h3] at h2
    cases h2
    exact hle
  | updated now tabId url =>
    rw [stepEvent] at h2
    by_cases hu : url.isEmpty
    · rw [if_pos hu, h] at h2
      cases h2
      exact le_refl _
    · rw [if_neg hu] at h2
      obtain ⟨td3, h3, hle⟩ := switchTab_lookup_preserve now tabId (some url) none s t td h
      rw [h3] at h2
      cases h2
      exact hle
  | focusLost now =>
    obtain ⟨td3, h3, hle⟩ := stopTracking_lookup_preserve now s t td h
    rw [stepEvent] at h2
    rw [h3] at h2
    cases h2
    exact hle
  | focusGained now tabId url =>
    rw [stepEvent, startTracking_lookup_preserve now tabId url s t td h] at h2
    cases h2
    exact le_refl _
  | removed tabId =>
    rw [stepEvent] at h2
    by_cases ht : t = tabId
    · subst ht
      have : lookupTab t (handleTabRemoved t s).tabData = none := by
        unfold handleTabRemoved
        split <;> exact lookupTab_eraseTab_self t s.tabData
      rw [this] at h2
      cases h2
    · have : lookupTab t (handleTabRemoved tabId s).tabData = lookupTab t s.tabData := by
        unfold handleTabRemoved
        split <;> exact lookupTab_eraseTab_ne t tabId ht s.tabData
      rw [this, h] at h2
      cases h2
      exact le_refl _

/-- The single-active-pair invariant: both fields set or both absent. -/
def ActivePairInv (s : TrackerState) : Prop :=
  (s.activeTabId = none ↔ s.activeTabStart = none)

lemma activePairInv_startTracking (now tabId : Nat) (url : Option String)
    (s : TrackerState) (h : ActivePairInv s) :
    ActivePairInv (startTracking now tabId url s) := by
  unfold startTracking
  split
  · exact h
  · constructor <;> intro hc <;> cases hc

lemma activePairInv_stopTracking (now : Nat) (s : TrackerState) :
    ActivePairInv (stopTracking now s) := by
  constructor <;> intro
  · exact stopTracking_activeTabStart now s
  · exact stopTracking_activeTabId now s

lemma activePairInv_switchTab (now tabId : Nat) (url lookup : Option String)
    (s : TrackerState) : ActivePairInv (switchTab now tabId url lookup s) := by
  unfold switchTab
  by_cases hu : strTruthy url
  · rw [if_pos hu]
    exact activePairInv_startTracking _ _ _ _ (activePairInv_stopTracking now s)
  · rw [if_neg hu]
    by_cases hl : strTruthy lookup
    · rw [if_pos hl]
      exact activePairInv_startTracking _ _ _ _ (activePairInv_stopTracking now s)
    · rw [if_neg hl]
      exact activePairInv_stopTracking now s

lemma activePairInv_stepEvent (s : TrackerState) (e : TabEvent)
    (h : ActivePairInv s) : ActivePairInv (stepEvent s e) := by
  cases e with
  | activated now tabId lookup => exact activePairInv_switchTab now tabId none lookup s
  | updated now tabId url =>
    rw [stepEvent]
    by_cases hu : url.isEmpty
    · rw [if_pos hu]; exact h
    · rw [if_neg hu]; exact activePairInv_switchTab now tabId (some url) none s
  | focusLost now => exact activePairInv_stopTracking now s
  | focusGained now tabId url => exact activePairInv_startTracking now tabId url s h
  | removed tabId =>
    rw [stepEvent]
    unfold handleTabRemoved
    split
    · constructor <;> intro <;> rfl
    · exact h

lemma activePairInv_runEvents (events : List TabEvent) :
    ActivePairInv (runEvents events) := by
  have haux : ∀ (l : List TabEvent) (s : TrackerState), ActivePairInv s →
      ActivePairInv (l.foldl stepEvent s) := by
    intro l
    induction l with
    | nil => intro s h; exact h
    | cons e rest ih =>
      intro s h
      exact ih (stepEvent s e) (activePairInv_stepEvent s e h)
  exact haux events initState (by constructor <;> intro <;> rfl)

/-- The untouched-tab property used for the internal-URL claim: tab `t`
has no record and is not active. -/
def Untouched (t : Nat) (s : TrackerState) : Prop :=
  lookupTab t s.tabData = none ∧ s.activeTabId ≠ some t

lemma untouched_stopTracking (now : Nat) (t : Nat) (s : TrackerState)
    (h : Untouched t s) : Untouched t (stopTracking now s) := by
  refine ⟨stopTracking_lookup_none now s t h.2 h.1, ?_⟩
  rw [stopTracking_activeTabId now s]
  intro hc
  cases hc

lemma untouched_startTracking (now tabId : Nat) (url : Option String)
    (s : TrackerState) (ht : tabId ≠ t ∨ isExcludedUrl url = true)
    (h : Untouched t s) : Untouched t (startTracking now tabId url s) := by
  rcases ht with ht | ht
  · by_cases hex : isExcludedUrl url = true
    · rw [startTracking_excluded now tabId url s hex]
      exact h
    · have hex2 : isExcludedUrl url = false := by
        cases hbe : isExcludedUrl url
        · rfl
        · exact absurd hbe hex
      refine ⟨startTracking_lookup_none now tabId url s t (Ne.symm ht) h.1, ?_⟩
      rw [(startTracking_included now tabId url s hex2).1]
      intro hc
      cases hc
      exact ht rfl
  · rw [startTracking_excluded now tabId url s ht]
    exact h

lemma untouched_switchTab (now tabId : Nat) (url lookup : Option String)
    (s : TrackerState)
    (hurl : tabId ≠ t ∨ (strTruthy url = true → isExcludedUrl url = true))
    (hlkp : tabId ≠ t ∨ (strTruthy url = false → isExcludedUrl lookup = true))
    (h : Untouched t s) : Untouched t (switchTab now tabId url lookup s) := by
  have h1 := untouched_stopTracking now t s h
  unfold switchTab
  by_cases hu : strTruthy url
  · rw [if_pos hu]
    refine untouched_startTracking now tabId url _ ?_ h1
    rcases hurl with hne | himp
    · exact Or.inl hne
    · exact Or.inr (himp hu)
  · rw [if_neg hu]
    by_cases hl : strTruthy lookup
    · rw [if_pos hl]
      refine untouched_startTracking now tabId lookup _ ?_ h1
      rcases hlkp with hne | himp
      · exact Or.inl hne
      · exact Or.inr (himp (by cases hbe : strTruthy url; rfl; exact absurd hbe hu))
    · rw [if_neg hl]
      exact h1

lemma untouched_stepEvent (t : Nat) (s : TrackerState) (e : TabEvent)
    (he : startsTab t e = false) (h : Untouched t s) :
    Untouched t (stepEvent s e) := by
  cases e with
  | activated now tabId lookup =>
    rw [startsTab] at he
    rw [stepEvent]
    by_cases hid : tabId = t
    · have hex : isExcludedUrl lookup = true := by
        rcases hbe : isExcludedUrl lookup with _ | _
        · rw [hid, hbe] at he
          simp at he
        · rfl
      exact untouched_switchTab now tabId none lookup s
        (Or.inr (by intro hc; cases hc)) (Or.inr (fun _ => hex)) h
    · exact untouched_switchTab now tabId none lookup s (Or.inl hid) (Or.inl hid) h
  | updated now tabId url =>
    rw [startsTab] at he
    rw [stepEvent]
    by_cases hu : url.isEmpty
    · rw [if_pos hu]
      exact h
    · rw [if_neg hu]
      by_cases hid : tabId = t
      · have hex : isExcludedUrl (some url) = true := by
          rcases hbe : isExcludedUrl (some url) with _ | _
          · rw [hid, hbe] at he
            simp [hu] at he
          · rfl
        exact untouched_switchTab now tabId (some url) none s
          (Or.inr (fun _ => hex)) (Or.inr (fun _ => rfl)) h
      · exact untouched_switchTab now tabId (some url) none s (Or.inl hid) (Or.inl hid) h
  | focusLost now => exact untouched_stopTracking now t s h
  | focusGained now tabId url =>
    rw [startsTab] at he
    rw [stepEvent]
    by_cases hid : tabId = t
    · have hex : isExcludedUrl url = true := by
        rcases hbe : isExcludedUrl url with _ | _
        · rw [hid, hbe] at he
          simp at he
        · rfl
      exact untouched_startTracking now tabId url s (Or.inr hex) h
    · exact untouched_startTracking now tabId url s (Or.inl hid) h
  | removed tabId =>
    rw [stepEvent]
    unfold handleTabRemoved
    by_cases hid : t = tabId
    · subst hid
      split
      · exact ⟨lookupTab_eraseTab_self t s.tabData, by intro hc; cases hc⟩
      · exact ⟨lookupTab_eraseTab_self t s.tabData, h.2⟩
    · split
      · exact ⟨by rw [lookupTab_eraseTab_ne t tabId hid s.tabData]; exact h.1,
          by intro hc; cases hc⟩
      · exact ⟨by rw [lookupTab_eraseTab_ne t tabId hid s.tabData]; exact h.1, h.2⟩

lemma untouched_runEvents (t : Nat) (events : List TabEvent)
    (h : ∀ e ∈ events, startsTab t e = false) :
    Untouched t (runEvents events) := by
  have haux : ∀ (l : List TabEvent) (s : TrackerState),
      (∀ e ∈ l, startsTab t e = false) → Untouched t s →
      Untouched t (l.foldl stepEvent s) := by
    intro l
    induction l with
    | nil => intro s _ hs; exact hs
    | cons e rest ih =>
      intro s hl hs
      exact ih (stepEvent s e) (fun e2 he2 => hl e2 (List.mem_cons_of_mem e he2))
        (untouched_stepEvent t s e (hl e (List.mem_cons_self e rest)) hs)
  exact haux events initState h ⟨rfl, by intro hc; cases hc⟩

lemma stopTracking_cleared (now : Nat) (s : TrackerState)
    (h1 : s.activeTabId = none) (h2 : s.activeTabStart = none) :
    stopTracking now s = s := by
  obtain ⟨a, b, td, st⟩ := s
  cases h1
  cases h2
  rfl

lemma mem_insertByTimeDesc (p q : String × Nat) (l : List (String × Nat))
    (h : q ∈ insertByTimeDesc p l) : q = p ∨ q ∈ l := by
  induction l with
  | nil =>
    rw [insertByTimeDesc] at h
    rcases List.mem_singleton.mp h with h1
    exact Or.inl h1
  | cons r rest ih =>
    rw [insertByTimeDesc] at h
    by_cases hc : r.2 ≤ p.2
    · rw [if_pos hc] at h
      rcases List.mem_cons.mp h with h1 | h2
      · exact Or.inl h1
      · exact Or.inr h2
    · rw [if_neg hc] at h
      rcases List.mem_cons.mp h with h1 | h2
      · exact Or.inr (h1 ▸ List.mem_cons_self r rest)
      · rcases ih h2 with h3 | h4
        · exact Or.inl h3
        · exact Or.inr (List.mem_cons_of_mem r h4)

lemma timeSorted_insertByTimeDesc (p : String × Nat) (l : List (String × Nat))
    (h : TimeSorted l) : TimeSorted (insertByTimeDesc p l) := by
  induction l with
  | nil =>
    rw [insertByTimeDesc]
    exact List.pairwise_singleton _ p
  | cons q rest ih =>
    rw [insertByTimeDesc]
    rcases List.pairwise_cons.mp h with ⟨hq, hrest⟩
    by_cases hc : q.2 ≤ p.2
    · rw [if_pos hc]
      refine List.pairwise_cons.mpr ⟨?_, h⟩
      intro r hr
      rcases List.mem_cons.mp hr with h1 | h2
      · exact h1 ▸ hc
      · exact le_trans (hq r h2) hc
    · rw [if_neg hc]
      refine List.pairwise_cons.mpr ⟨?_, ih hrest⟩
      intro r hr
      rcases mem_insertByTimeDesc p r rest hr with h1 | h2
      · exact h1 ▸ le_of_not_le hc
      · exact hq r h2

lemma timeSorted_sortByTimeDesc (l : List (String × Nat)) :
    TimeSorted (sortByTimeDesc l) := by
  induction l with
  | nil => exact List.Pairwise.nil
  | cons p rest ih => exact timeSorted_insertByTimeDesc p _ ih

lemma filter_insertByTimeDesc_eq (p : String × Nat) (l : List (String × Nat))
    (v : Nat) (hv : p.2 = v) (h : TimeSorted l) :
    (insertByTimeDesc p l).filter (fun q => q.2 == v) =
      p :: l.filter (fun q => q.2 == v) := by
  induction l with
  | nil =>
    rw [insertByTimeDesc]
    simp [List.filter, hv]
  | cons q rest ih =>
    rw [insertByTimeDesc]
    rcases List.pairwise_cons.mp h with ⟨hq, hrest⟩
    by_cases hc : q.2 ≤ p.2
    · rw [if_pos hc]
      simp [List.filter, hv]
    · rw [if_neg hc]
      have hqv : (q.2 == v) = false := by
        have : v < q.2 := hv ▸ lt_of_not_le hc
        simp [Nat.ne_of_gt this]
      simp only [List.filter, hqv]
      exact ih hrest
  
lemma filter_insertByTimeDesc_ne (p : String × Nat) (l : List (String × Nat))
    (v : Nat) (hv : p.2 ≠ v) :
    (insertByTimeDesc p l).filter (fun q => q.2 == v) =
      l.filter (fun q => q.2 == v) := by
  induction l with
  | nil =>
    rw [insertByTimeDesc]
    simp [List.filter_cons, hv]
  | cons q rest ih =>
    rw [insertByTimeDesc]
    by_cases hc : q.2 ≤ p.2
    · rw [if_pos hc]
      simp only [List.filter_cons]
      rw [(by simp [hv] : (p.2 == v) = false)]
      simp
    · rw [if_neg hc]
      simp only [List.filter_cons]
      rw [ih]

lemma filter_sortByTimeDesc (l : List (String × Nat)) (v : Nat) :
    (sortByTimeDesc l).filter (fun q => q.2 == v) =
      l.filter (fun q => q.2 == v) := by
  induction l with
  | nil => rfl
  | cons p rest ih =>
    have hs : sortByTimeDesc (p :: rest) = insertByTimeDesc p (sortByTimeDesc rest) := rfl
    rw [hs]
    by_cases hv : p.2 = v
    · rw [filter_insertByTimeDesc_eq p _ v hv (timeSorted_sortByTimeDesc rest), ih]
      simp [List.filter, hv]
    · rw [filter_insertByTimeDesc_ne p _ v hv, ih]
      simp only [List.filter]
      rw [(by simp [hv] : (p.2 == v) = false)]

lemma recordPosition_length (now : Nat) (x y : Option Int) (w : Nat) (s : CursorState) :
    (recordPosition now x y w s).heatmapData.length =
      min (s.heatmapData.length + 1) 1000 := by
  unfold recordPosition
  dsimp only
  split
  · rename_i hgt
    rw [List.length_drop]
    rw [List.length_append, List.length_singleton] at hgt ⊢
    omega
  · rename_i hle
    rw [List.length_append, List.length_singleton] at hle ⊢
    omega

lemma recordPosition_suffix (now : Nat) (x y : Option Int) (w : Nat) (s : CursorState) :
    List.IsSuffix (recordPosition now x y w s).heatmapData
      (s.heatmapData ++ [recordedPoint now x y w s]) := by
  unfold recordPosition
  dsimp only
  split
  · exact List.drop_suffix _ _
  · exact List.suffix_refl _

lemma recordPosition_getLast (now : Nat) (x y : Option Int) (w : Nat) (s : CursorState) :
    (recordPosition now x y w s).heatmapData.getLast? =
      some (recordedPoint now x y w s) := by
  unfold recordPosition
  dsimp only
  split
  · rename_i hgt
    have hk : s.heatmapData.length + 1 - 1000 ≤ s.heatmapData.length := by
      rw [List.length_append, List.length_singleton] at hgt
      omega
    rw [List.length_append, List.length_singleton,
      List.drop_append_of_le_length hk, List.getLast?_concat]
  · rw [List.getLast?_concat]

/-- Claim C1, counterexample: switching from currently tracked tab 1
(started at time 100) to tab 2 at the same time 100 gives elapsed =
B-start − A-start = 0, and the code then appends no session record and
leaves totalTime at 0 (the `sessionTime > 0` guard of `stopTracking`),
while the claim demands that a session record with duration 0 be
appended on every switch from a tracked tab. -/
theorem C1_counterexample_zero_elapsed :
    (runEvents [TabEvent.updated 100 1 ("https://a.com")]).activeTabId = some 1 ∧
    (runEvents [TabEvent.updated 100 1 ("https://a.com")]).activeTabStart = some 100 ∧
    lookupTab 1 (runEvents [TabEvent.updated 100 1 ("https://a.com"),
        TabEvent.updated 100 2 ("https://b.com")]).tabData =
      some { url := "https://a.com", domain := "a.com", totalTime := 0,
             sessions := [] } := by
  decide

/-- Claim C1 (amended): for every switch from a currently tracked tab A
(nonzero id and start, as JavaScript truthiness demands) to a tab B,
when the elapsed time now − A-start is positive the tracker finalizes
A's session by appending the record {start := A-start, end := now,
duration := now − A-start} to A's sessions, adding that duration to A's
totalTime, and persisting the updated tab map; when the elapsed time is
zero the record and the persisted map are unchanged; and every tab's
totalTime is monotonically non-decreasing: no operation decreases the
totalTime of a record present both before and after it. -/
theorem C1_switch_finalizes_and_monotone :
    (∀ (s : TrackerState) (now A st : Nat) (td : TabRecord) (tabB : Nat)
        (url lookup : Option String),
        s.activeTabId = some A → s.activeTabStart = some st → A ≠ 0 → st ≠ 0 →
        lookupTab A s.tabData = some td →
        ((st < now →
            lookupTab A (switchTab now tabB url lookup s).tabData =
              some (finalizeRecord st now td) ∧
            lookupTab A (switchTab now tabB url lookup s).storage =
              some (finalizeRecord st now td)) ∧
         (now ≤ st →
            lookupTab A (switchTab now tabB url lookup s).tabData = some td ∧
            (switchTab now tabB url lookup s).storage = s.storage))) ∧
    (∀ (s : TrackerState) (e : TabEvent) (t : Nat) (td td2 : TabRecord),
        lookupTab t s.tabData = some td →
        lookupTab t (stepEvent s e).tabData = some td2 →
        td.totalTime ≤ td2.totalTime) := by
  constructor
  · intro s now A st td tabB url lookup hA hst hA0 hst0 htd
    exact ⟨fun hlt =>
        switchTab_lookup_finalize s now A st td tabB url lookup hA hst hA0 hst0 htd hlt,
      fun hge =>
        switchTab_lookup_noSession s now A st td tabB url lookup hA hst htd hge⟩
  · exact stepEvent_totalTime_mono

/-- Claim C1 witness: the amended theorem applied to the concrete switch
from tab 1 (started at 100) to tab 2 at time 5100. -/
theorem C1_witness :
    lookupTab 1 (switchTab 5100 2 (some ("https://b.com")) none
        (runEvents [TabEvent.updated 100 1 ("https://a.com")])).tabData =
      some (finalizeRecord 100 5100
        { url := "https://a.com", domain := "a.com", totalTime := 0, sessions := [] }) :=
  ((C1_switch_finalizes_and_monotone.1
      (runEvents [TabEvent.updated 100 1 ("https://a.com")]) 5100 1 100
      { url := "https://a.com", domain := "a.com", totalTime := 0, sessions := [] }
      2 (some ("https://b.com")) none (by decide) (by decide) (by decide) (by decide)
      (by decide)).1 (by decide)).1

/-- Claim C2: in every reachable state the active pair {activeTabId,
activeTabStart} is fully set or fully absent, and a switch that starts
tracking a new tab B first finalizes the prior session of the tracked
tab A (its closed session record is in the final map) before B's start
is recorded as the new active pair. -/
theorem C2_single_active_and_finalize_before_start :
    (∀ events : List TabEvent,
        ((runEvents events).activeTabId = none ↔
          (runEvents events).activeTabStart = none)) ∧
    (∀ (s : TrackerState) (now A st : Nat) (td : TabRecord) (tabB : Nat) (u : String),
        s.activeTabId = some A → s.activeTabStart = some st → A ≠ 0 → st ≠ 0 →
        st < now → lookupTab A s.tabData = some td →
        u.isEmpty = false → isInternalUrl u = false →
        (switchTab now tabB (some u) none s).activeTabId = some tabB ∧
        (switchTab now tabB (some u) none s).activeTabStart = some now ∧
        lookupTab A (switchTab now tabB (some u) none s).tabData =
          some (finalizeRecord st now td)) := by
  constructor
  · intro events
    exact activePairInv_runEvents events
  · intro s now A st td tabB u hA hst hA0 hst0 hlt htd hu hint
    have hex : isExcludedUrl (some u) = false := by
      simp [isExcludedUrl, strTruthy, hu, hint]
    have htr : strTruthy (some u) = true := by
      simp [strTruthy, hu]
    have hfin := switchTab_lookup_finalize s now A st td tabB (some u) none
      hA hst hA0 hst0 htd hlt
    refine ⟨?_, ?_, hfin.1⟩
    · unfold switchTab
      rw [if_pos htr]
      exact (startTracking_included now tabB (some u) _ hex).1
    · unfold switchTab
      rw [if_pos htr]
      exact (startTracking_included now tabB (some u) _ hex).2

/-- Claim C2 witness: the invariant after a concrete trace, and the
finalize-before-start property at a concrete switch. -/
theorem C2_witness :
    ((runEvents [TabEvent.updated 100 1 ("https://a.com")]).activeTabId = none ↔
      (runEvents [TabEvent.updated 100 1 ("https://a.com")]).activeTabStart = none) ∧
    ((switchTab 5100 2 (some ("https://b.com")) none
        (runEvents [TabEvent.updated 100 1 ("https://a.com")])).activeTabId = some 2 ∧
     (switchTab 5100 2 (some ("https://b.com")) none
        (runEvents [TabEvent.updated 100 1 ("https://a.com")])).activeTabStart = some 5100 ∧
     lookupTab 1 (switchTab 5100 2 (some ("https://b.com")) none
        (runEvents [TabEvent.updated 100 1 ("https://a.com")])).tabData =
       some (finalizeRecord 100 5100
         { url := "https://a.com", domain := "a.com", totalTime := 0, sessions := [] })) :=
  ⟨C2_single_active_and_finalize_before_start.1 [TabEvent.updated 100 1 ("https://a.com")],
   C2_single_active_and_finalize_before_start.2
     (runEvents [TabEvent.updated 100 1 ("https://a.com")]) 5100 1 100
     { url := "https://a.com", domain := "a.com", totalTime := 0, sessions := [] }
     2 "https://b.com" (by decide) (by decide) (by decide) (by decide) (by decide)
     (by decide) (by decide) (by decide)⟩

/-- Claim C3: `startTracking` is the identity for an absent URL and for
every URL starting with one of the six internal-scheme prefixes, and a
tab for which no event in a trace ever supplies a non-excluded URL has
no record and is never active, so no time ever accumulates for it. -/
theorem C3_internal_urls_never_tracked :
    (∀ (now tabId : Nat) (url : Option String) (s : TrackerState),
        (url = none ∨ ∃ u, url = some u ∧
          (strStartsWith u ("chrome://") = true ∨
           strStartsWith u ("chrome-extension://") = true ∨
           strStartsWith u ("moz-extension://") = true ∨
           strStartsWith u ("edge://") = true ∨
           strStartsWith u ("brave://") = true ∨
           strStartsWith u ("opera://") = true)) →
        startTracking now tabId url s = s) ∧
    (∀ (t : Nat) (events : List TabEvent),
        (∀ e ∈ events, startsTab t e = false) →
        lookupTab t (runEvents events).tabData = none ∧
        (runEvents events).activeTabId ≠ some t) := by
  constructor
  · intro now tabId url s hurl
    apply startTracking_excluded
    rcases hurl with rfl | ⟨u, rfl, hd⟩
    · rfl
    · rcases hd with h | h | h | h | h | h <;>
        simp [isExcludedUrl, isInternalUrl, h]
  · intro t events h
    exact untouched_runEvents t events h

/-- Claim C3 witness: a chrome:// URL leaves the tracker untouched, and
a trace whose only event targets tab 7 with an internal URL leaves tab
7 without a record. -/
theorem C3_witness :
    startTracking 5 7 (some ("chrome://settings")) initState = initState ∧
    (lookupTab 7 (runEvents [TabEvent.updated 9 7 ("chrome://newtab")]).tabData = none ∧
     (runEvents [TabEvent.updated 9 7 ("chrome://newtab")]).activeTabId ≠ some 7) :=
  ⟨C3_internal_urls_never_tracked.1 5 7 (some ("chrome://settings")) initState
      (Or.inr ⟨"chrome://settings", rfl, Or.inl (by decide)⟩),
   C3_internal_urls_never_tracked.2 7 [TabEvent.updated 9 7 ("chrome://newtab")]
      (by decide)⟩

/-- Claim C4: removing a tab deletes its record, leaves every other
record unchanged, and when the removed tab was the active one the
active pair is cleared, `getCurrentSessionTime` returns 0, and
`stopTracking` is the identity (no time accrues) until a new tab is
selected. -/
theorem C4_remove_tab :
    ∀ (s : TrackerState) (tabId now : Nat),
      lookupTab tabId (handleTabRemoved tabId s).tabData = none ∧
      (∀ t, t ≠ tabId →
        lookupTab t (handleTabRemoved tabId s).tabData = lookupTab t s.tabData) ∧
      (s.activeTabId = some tabId →
        (handleTabRemoved tabId s).activeTabId = none ∧
        (handleTabRemoved tabId s).activeTabStart = none ∧
        getCurrentSessionTime now (handleTabRemoved tabId s) = 0 ∧
        (∀ now2, stopTracking now2 (handleTabRemoved tabId s) =
          handleTabRemoved tabId s)) := by
  intro s tabId now
  refine ⟨?_, ?_, ?_⟩
  · unfold handleTabRemoved
    split <;> exact lookupTab_eraseTab_self tabId s.tabData
  · intro t ht
    unfold handleTabRemoved
    split <;> exact lookupTab_eraseTab_ne t tabId ht s.tabData
  · intro hact
    have h1 : (handleTabRemoved tabId s).activeTabId = none := by
      unfold handleTabRemoved
      rw [if_pos hact]
    have h2 : (handleTabRemoved tabId s).activeTabStart = none := by
      unfold handleTabRemoved
      rw [if_pos hact]
    refine ⟨h1, h2, ?_, fun now2 => stopTracking_cleared now2 _ h1 h2⟩
    unfold getCurrentSessionTime
    rw [h1]

/-- Claim C4 witness: removing the active tab 1 of a concrete state. -/
theorem C4_witness :
    lookupTab 1 (handleTabRemoved 1
      (runEvents [TabEvent.updated 100 1 ("https://a.com")])).tabData = none ∧
    getCurrentSessionTime 5000 (handleTabRemoved 1
      (runEvents [TabEvent.updated 100 1 ("https://a.com")])) = 0 ∧
    lookupTab 2 (handleTabRemoved 1
        (runEvents [TabEvent.updated 100 1 ("https://a.com")])).tabData =
      lookupTab 2 (runEvents [TabEvent.updated 100 1 ("https://a.com")]).tabData :=
  ⟨(C4_remove_tab (runEvents [TabEvent.updated 100 1 ("https://a.com")]) 1 5000).1,
   ((C4_remove_tab (runEvents [TabEvent.updated 100 1 ("https://a.com")]) 1 5000).2.2
      (by decide)).2.2.1,
   (C4_remove_tab (runEvents [TabEvent.updated 100 1 ("https://a.com")]) 1 5000).2.1 2
      (by decide)⟩

/-- Claim C5: for every tab-data map the popup's per-domain aggregation
produces at most 10 entries, in non-increasing order of total time
(descending, strict between entries of different totals), and entries
of equal total time retain the stable input order: for every total
value the sorted list restricted to it equals the aggregated input
restricted to it. -/
theorem C5_top_domains :
    ∀ tabs : List TabRecord,
      (displayDailyStats tabs).length ≤ 10 ∧
      (displayDailyStats tabs).Pairwise (fun a b => b.2 ≤ a.2) ∧
      (∀ v : Nat,
        (sortByTimeDesc (aggregateDomains tabs)).filter (fun q => q.2 == v) =
          (aggregateDomains tabs).filter (fun q => q.2 == v)) := by
  intro tabs
  refine ⟨?_, ?_, fun v => filter_sortByTimeDesc _ v⟩
  · unfold displayDailyStats
    exact List.length_take_le 10 _
  · unfold displayDailyStats
    exact List.Pairwise.sublist (List.take_sublist 10 _)
      (timeSorted_sortByTimeDesc (aggregateDomains tabs))

/-- Claim C6, counterexample: with a successful tab query on a normal
page, a live tracker that has been active since time 1000, and a
failing storage read, the `GET_TIME_DATA` response at time 6000 is
{tabData: {}, currentSessionTime: 5000} — the claim instead demands
{tabData: {}, currentSessionTime: 0} whenever the storage read fails
(`getStoredData` resolves an empty result instead of rejecting, so the
catch branch that would zero the session time is never reached). -/
theorem C6_counterexample_storage_failure :
    handleGetTimeData true (some { url := "https://a.com" }) 6000
        (some (runEvents [TabEvent.updated 1000 1 ("https://a.com")])) false none =
      { tabData := [], currentSessionTime := 5000 } ∧
    ({ tabData := [], currentSessionTime := 5000 } : TimeResponse) ≠
      { tabData := [], currentSessionTime := 0 } := by
  decide

/-- Claim C6 (amended): every `GET_TIME_DATA` message receives a
response of shape {tabData, currentSessionTime}; when the tab query
fails the response is {tabData: {}, currentSessionTime: 0}; when only
the storage read fails the response degrades to tabData: {} while
currentSessionTime is still computed from the live tracker; and the
heatmap-variant background additionally accepts SAVE_HEATMAP_DATA
messages with a data payload. -/
theorem C6_message_contract :
    (∀ (tab : Option ChromeTab) (now : Nat) (tracker : Option TrackerState)
        (storageOk : Bool) (stored : Option TabMap),
        handleGetTimeData false tab now tracker storageOk stored =
          { tabData := [], currentSessionTime := 0 }) ∧
    (∀ (tab : Option ChromeTab) (now : Nat) (tracker : Option TrackerState)
        (stored : Option TabMap),
        (handleGetTimeData true tab now tracker false stored).tabData = []) ∧
    (∀ data, backgroundAccepts (ExtMessage.saveHeatmapData data) = true) := by
  refine ⟨fun tab now tracker storageOk stored => rfl, ?_, fun data => rfl⟩
  intro tab now tracker stored
  unfold handleGetTimeData
  rw [if_neg (by simp)]
  cases tracker <;> rfl

/-- Claim C7: after any `recordPosition` call the heatmap buffer has at
most 1000 points — exactly min(previous + 1, 1000) — and is a suffix
(the most recent entries) of the previous buffer with the new point
pushed; and on load with stored data for the domain, the buffer is
replaced by exactly the stored points whose timestamp is strictly
within the last 24 hours. -/
theorem C7_heatmap_buffer_bounds :
    (∀ (now : Nat) (x y : Option Int) (w : Nat) (s : CursorState),
        (recordPosition now x y w s).heatmapData.length ≤ 1000 ∧
        (recordPosition now x y w s).heatmapData.length =
          min (s.heatmapData.length + 1) 1000 ∧
        List.IsSuffix (recordPosition now x y w s).heatmapData
          (s.heatmapData ++ [recordedPoint now x y w s])) ∧
    (∀ (now : Nat) (hm : List (String × List HeatmapPoint)) (s : CursorState)
        (existing : List HeatmapPoint),
        lookupDomain s.domain hm = some existing →
        (loadExistingData now (some hm) s).heatmapData =
          existing.filter
            (fun p => decide ((now : Int) - 24 * 60 * 60 * 1000 < (p.timestamp : Int))) ∧
        (∀ p : HeatmapPoint,
          p ∈ (loadExistingData now (some hm) s).heatmapData ↔
            (p ∈ existing ∧ (now : Int) - 24 * 60 * 60 * 1000 < (p.timestamp : Int)))) := by
  constructor
  · intro now x y w s
    refine ⟨?_, recordPosition_length now x y w s, recordPosition_suffix now x y w s⟩
    rw [recordPosition_length now x y w s]
    exact min_le_right _ _
  · intro now hm s existing hlk
    have hload : (loadExistingData now (some hm) s).heatmapData =
        existing.filter
          (fun p => decide ((now : Int) - 24 * 60 * 60 * 1000 < (p.timestamp : Int))) := by
      unfold loadExistingData
      dsimp only
      rw [hlk]
    refine ⟨hload, fun p => ?_⟩
    rw [hload]
    constructor
    · intro hp
      have := List.mem_filter.mp hp
      exact ⟨this.1, of_decide_eq_true this.2⟩
    · intro hp
      exact List.mem_filter.mpr ⟨hp.1, decide_eq_true hp.2⟩

/-- Claim C7 witness: loading stored data for domain a.com at time
200000000 keeps only the point newer than 24 hours. -/
theorem C7_witness :
    (loadExistingData 200000000
      (some [("a.com",
        [{ x := 10, y := 10, timestamp := 1000, weight := 1, domain := "a.com",
           url := "https://a.com", viewport := { width := 800, height := 600 } },
         { x := 20, y := 20, timestamp := 150000000, weight := 5, domain := "a.com",
           url := "https://a.com", viewport := { width := 800, height := 600 } }])])
      { heatmapData := [], currentPosition := (0, 0), domain := "a.com",
        url := "https://a.com", viewport := { width := 800, height := 600 } }).heatmapData =
      [{ x := 20, y := 20, timestamp := 150000000, weight := 5, domain := "a.com",
         url := "https://a.com", viewport := { width := 800, height := 600 } }] := by
  rw [(C7_heatmap_buffer_bounds.2 200000000
    [("a.com",
      [{ x := 10, y := 10, timestamp := 1000, weight := 1, domain := "a.com",
         url := "https://a.com", viewport := { width := 800, height := 600 } },
       { x := 20, y := 20, timestamp := 150000000, weight := 5, domain := "a.com",
         url := "https://a.com", viewport := { width := 800, height := 600 } }])]
    { heatmapData := [], currentPosition := (0, 0), domain := "a.com",
      url := "https://a.com", viewport := { width := 800, height := 600 } }
    [{ x := 10, y := 10, timestamp := 1000, weight := 1, domain := "a.com",
       url := "https://a.com", viewport := { width := 800, height := 600 } },
     { x := 20, y := 20, timestamp := 150000000, weight := 5, domain := "a.com",
       url := "https://a.com", viewport := { width := 800, height := 600 } }]
    (by decide)).1]
  decide

/-- Claim C8: from empty state, activating tab 1 with https://a.com and
tab 2 with https://b.com 5000 ms later leaves tab 1 with exactly one
session of duration 5000 ms, totalTime 5000, and domain "a.com".  The
example's t = 0 is relative to an arbitrary positive epoch `base`,
since `Date.now()` is always positive. -/
theorem C8_two_tab_example :
    ∀ base : Nat, 0 < base →
      lookupTab 1 (runEvents [TabEvent.updated base 1 ("https://a.com"),
          TabEvent.updated (base + 5000) 2 ("https://b.com")]).tabData =
        some { url := "https://a.com", domain := "a.com", totalTime := 5000,
               sessions := [{ start := base, endT := base + 5000, duration := 5000 }] } := by
  intro base hb
  have hb0 : base ≠ 0 := Nat.pos_iff_ne_zero.mp hb
  have hs1 : stepEvent initState (TabEvent.updated base 1 ("https://a.com")) =
      { activeTabId := some 1, activeTabStart := some base,
        tabData := [(1, { url := "https://a.com", domain := "a.com",
                          totalTime := 0, sessions := [] })], storage := [] } := rfl
  have hrun : runEvents [TabEvent.updated base 1 ("https://a.com"),
      TabEvent.updated (base + 5000) 2 ("https://b.com")] =
      switchTab (base + 5000) 2 (some ("https://b.com")) none
        (stepEvent initState (TabEvent.updated base 1 ("https://a.com"))) := rfl
  have key := switchTab_lookup_finalize
    (stepEvent initState (TabEvent.updated base 1 ("https://a.com")))
    (base + 5000) 1 base
    { url := "https://a.com", domain := "a.com", totalTime := 0, sessions := [] }
    2 (some ("https://b.com")) none
    (by rw [hs1]) (by rw [hs1]) (by decide) hb0
    (by rw [hs1]; rfl) (by omega)
  rw [hrun, key.1]
  unfold finalizeRecord
  simp [Nat.add_sub_cancel_left]

/-- Claim C8 witness: the example at epoch base = 1. -/
theorem C8_witness :
    lookupTab 1 (runEvents [TabEvent.updated 1 1 ("https://a.com"),
        TabEvent.updated (1 + 5000) 2 ("https://b.com")]).tabData =
      some { url := "https://a.com", domain := "a.com", totalTime := 5000,
             sessions := [{ start := 1, endT := 1 + 5000, duration := 5000 }] } :=
  C8_two_tab_example 1 (by decide)

/-- Claim C9: every grid cell with 0 ≤ gridX ≤ 50 and 0 ≤ gridY ≤ 40 is
contained in exactly one of the nine named regions, and `getAreaName`
returns one of the nine names, never the "Unknown" fallback. -/
theorem C9_area_names_cover :
    ∀ gridX : Nat, gridX ≤ 50 → ∀ gridY : Nat, gridY ≤ 40 →
      getAreaName gridX gridY ≠ "Unknown" ∧
      getAreaName gridX gridY ∈
        ["Top Left", "Top Center", "Top Right", "Middle Left", "Center",
         "Middle Right", "Bottom Left", "Bottom Center", "Bottom Right"] ∧
      areas.countP (fun a => areaContains gridX gridY a) = 1 := by
  decide

/-- Claim C9 witness: the cover property at the corner cell (0, 0). -/
theorem C9_witness :
    getAreaName 0 0 ≠ "Unknown" ∧
    getAreaName 0 0 ∈
      ["Top Left", "Top Center", "Top Right", "Middle Left", "Center",
       "Middle Right", "Bottom Left", "Bottom Center", "Bottom Right"] ∧
    areas.countP (fun a => areaContains 0 0 a) = 1 :=
  C9_area_names_cover 0 (by decide) 0 (by decide)

/-- Claim C10: `recordPosition` substitutes the last sampled cursor
position for an explicitly passed coordinate equal to 0 (the `x ||`
fallback), records any nonzero explicit coordinate as given, gives
click points weight 5 and timer-sampled points weight 1 at the current
position, and `handleMouseMove` is what updates the current position. -/
theorem C10_record_position_substitution :
    ∀ (now : Nat) (clientX clientY scrollY : Int) (s : CursorState),
      (handleClick now clientX clientY scrollY s).heatmapData.getLast? =
        some { x := if clientX = 0 then s.currentPosition.1 else clientX,
               y := if clientY + scrollY = 0 then s.currentPosition.2
                    else clientY + scrollY,
               timestamp := now, weight := 5, domain := s.domain, url := s.url,
               viewport := s.viewport } ∧
      (sampleTick now false s).heatmapData.getLast? =
        some { x := s.currentPosition.1, y := s.currentPosition.2, timestamp := now,
               weight := 1, domain := s.domain, url := s.url,
               viewport := s.viewport } ∧
      (handleMouseMove clientX clientY scrollY s).currentPosition =
        (clientX, clientY + scrollY) := by
  intro now clientX clientY scrollY s
  refine ⟨?_, ?_, rfl⟩
  · unfold handleClick
    rw [recordPosition_getLast]
    rfl
  · have h : sampleTick now false s = recordPosition now none none 1 s := rfl
    rw [h, recordPosition_getLast]
    rfl
